import Mathlib

/-!
Verification development for the pathway frontend: a shallow embedding of
the logical-plan table algebra (`pathway/internals/table.py`) and of the
scope lowering state (`pathway/internals/graph_runner/state.py`), together
with theorems settling the specification claims about them.

Collaborator modules that the repository snapshot does not include under
`src/` (the dtype lattice, the universe solver, the context classes, the
expression visitor, and the path storage) are modelled from the
specification's words; each such definition carries a doc comment starting
with `Modelled from the spec:`.
-/

namespace Pathway

/-- Association-list lookup used throughout the embedding for the Python
dict fields (first binding wins, which matches dict overwrite when new
bindings are consed at the front). -/
def alookup {α β : Type} [DecidableEq α] : List (α × β) → α → Option β
  | [], _ => none
  | (k, v) :: rest, a => if k = a then some v else alookup rest a

/-- Modelled from the spec: the relational data types of §4.A (dtype module
is not under src/). Only the constructors the claims exercise are carried:
integers, floats, booleans, strings, pointers and optionals. -/
inductive DType : Type
  | int
  | float
  | bool
  | str
  | pointer
  | optional (t : DType)
deriving DecidableEq, Repr

/-- Modelled from the spec: `unoptionalize(T)` strips one level of
optionality (§4.A). -/
def unoptionalize : DType → DType
  | DType.optional t => t
  | t => t

/-- Modelled from the spec: the `Optional` smart constructor is idempotent
(optional of optional collapses). -/
def mkOptional : DType → DType
  | DType.optional t => DType.optional t
  | t => DType.optional t

/-- Modelled from the spec: `dtype_issubclass(a, Optional(b))` must be true
when `a ∈ {b, Optional(b)}` (§4.A); on non-optional right-hand sides the
model requires equality. -/
def dtype_issubclass : DType → DType → Bool
  | a, DType.optional b => a = DType.optional b || dtype_issubclass a b
  | a, b => a = b

/-- Modelled from the spec: `types_lca` returns the least common supertype,
the identity on equal inputs, lifting through `Optional`, with
`int`/`float` joining at `float`; `none` when the LCA does not exist
(§4.A). -/
def types_lca : DType → DType → Option DType
  | DType.optional a, DType.optional b => (types_lca a b).map DType.optional
  | DType.optional a, b => (types_lca a b).map DType.optional
  | a, DType.optional b => (types_lca a b).map DType.optional
  | DType.int, DType.float => some DType.float
  | DType.float, DType.int => some DType.float
  | a, b => if a = b then some a else none

def DType.isPointer : DType → Bool
  | DType.pointer => true
  | _ => false

def DType.isOptional : DType → Bool
  | DType.optional _ => true
  | _ => false

/-- Modelled from the spec: the universe solver state (§4.B;
`universe_solver.py` is not under src/). Universes are opaque identity
tokens, embedded as naturals. The state records the facts the solver has
proven — promised equalities, promised disjoint pairs and subset facts —
plus a fresh-universe counter; queries are membership in those facts, with
reflexivity for equality and subset. -/
structure Solver : Type where
  eqPairs : List (Nat × Nat)
  disjPairs : List (Nat × Nat)
  subPairs : List (Nat × Nat)
  fresh : Nat
deriving DecidableEq, Repr

/-- Modelled from the spec: `query_are_equal(U, V)` — same universe or a
recorded equality promise (symmetric). -/
def Solver.queryAreEqual (s : Solver) (u v : Nat) : Bool :=
  u = v || s.eqPairs.contains (u, v) || s.eqPairs.contains (v, u)

/-- Modelled from the spec: a single disjointness fact (symmetric). -/
def Solver.queryAreDisjointPair (s : Solver) (u v : Nat) : Bool :=
  s.disjPairs.contains (u, v) || s.disjPairs.contains (v, u)

/-- Modelled from the spec: `query_are_disjoint(U₁…Uₙ)` — true iff all
pairs are proved disjoint (§4.B). -/
def Solver.queryAreDisjoint (s : Solver) : List Nat → Bool
  | [] => true
  | u :: rest =>
    rest.all (fun v => s.queryAreDisjointPair u v) && s.queryAreDisjoint rest

/-- Modelled from the spec: `query_is_subset(U, V)` — reflexive, else a
recorded subset fact. -/
def Solver.queryIsSubset (s : Solver) (u v : Nat) : Bool :=
  u = v || s.subPairs.contains (u, v)

/-- Modelled from the spec: `promise_are_equal` inserts an equality
assertion and must detect contradiction — asserting equality of two
already-disjoint universes raises `ValueError` (§4.B). -/
def Solver.promiseAreEqual (s : Solver) (u v : Nat) : Except String Solver :=
  if s.queryAreDisjointPair u v then
    Except.error "ValueError: universes are already disjoint"
  else
    Except.ok { s with eqPairs := (u, v) :: s.eqPairs }

/-- Modelled from the spec: `Universe.subset()` allocates a fresh universe
recorded as a subset of the given one (filter result universe is a fresh
subset of U, §4.F). -/
def Solver.subsetUniverse (s : Solver) (u : Nat) : Nat × Solver :=
  (s.fresh,
    { s with subPairs := (s.fresh, u) :: s.subPairs, fresh := s.fresh + 1 })

/-- Modelled from the spec: `get_union(U₁…Uₙ)` — if all inputs are equal,
returns that representative with the state unchanged; otherwise a fresh
universe of which every input is a subset (§4.B). -/
def Solver.getUnion (s : Solver) (u : Nat) (rest : List Nat) : Nat × Solver :=
  if rest.all (fun v => s.queryAreEqual u v) then (u, s)
  else
    (s.fresh,
      { s with
        subPairs := (u :: rest).map (fun v => (v, s.fresh)) ++ s.subPairs,
        fresh := s.fresh + 1 })

/-- Modelled from the spec: the context kinds of §3 that the claims
mention. -/
inductive CtxKind : Type
  | rowwise
  | filterCtx
  | restrictCtx
  | concatUnsafe
  | updateCells
  | updateRows
  | promiseSameUniverse
  | flattenCtx
  | reindexCtx
  | ixCtx
deriving DecidableEq, Repr

/-- Modelled from the spec: a context carries its operator kind and its
owning universe (`context.univ` in `column.py`, not under src/). -/
structure Ctx : Type where
  kind : CtxKind
  univ : Nat
deriving DecidableEq, Repr

/-- A logical column: its universe, its dtype, and the context it is
wrapped in (`none` for materialized columns). Embeds the
`(universe, properties)` record of §4.C. -/
structure Column : Type where
  univ : Nat
  dtype : DType
  ctx : Option Ctx
deriving DecidableEq, Repr

/-- A logical table: ordered mapping name → column, universe, schema
(ordered name → dtype). `tid` is an identity label standing for Python
object identity of the table (used by `filter`'s `filter_col.table == self`
check). Primary-key columns and the id column are omitted: no claim
mentions them. -/
structure Table : Type where
  tid : Nat
  columns : List (String × Column)
  univ : Nat
  schema : List (String × DType)
deriving DecidableEq, Repr

/-- Modelled from the spec: `schema_from_columns` derives the ordered
schema from the column mapping (`schema.py` is not under src/). -/
def schema_from_columns (cols : List (String × Column)) :
    List (String × DType) :=
  cols.map (fun nc => (nc.1, nc.2.dtype))

/-- Embeds `Table.__init__` (table.py:106-122): when no schema is passed,
it is derived from the columns. -/
def mkTable (tid : Nat) (cols : List (String × Column)) (u : Nat)
    (schema : Option (List (String × DType))) : Table :=
  ⟨tid, cols, u, schema.getD (schema_from_columns cols)⟩

/-- Embeds `Table._wrap_column_in_context` (table.py:1907-1921): the
wrapped column lives in the context's universe and keeps its dtype. -/
def wrapColumnInContext (c : Ctx) (col : Column) : Column :=
  ⟨c.univ, col.dtype, some c⟩

/-- Embeds `Table._table_with_context` (table.py:1923-1934): every column
wrapped in the context, table universe = context universe, schema
derived. -/
def Table.tableWithContext (t : Table) (c : Ctx) : Table :=
  mkTable t.tid (t.columns.map (fun nc => (nc.1, wrapColumnInContext c nc.2)))
    c.univ none

/-- Embeds `Table.copy` (table.py:747-779): every column re-wrapped in the
table's own rowwise context, same universe. -/
def Table.copy (t : Table) : Table :=
  mkTable t.tid
    (t.columns.map
      (fun nc => (nc.1, wrapColumnInContext ⟨CtxKind.rowwise, t.univ⟩ nc.2)))
    t.univ none

/-- Embeds `Table._unsafe_promise_universe` (table.py:1881-1894): columns
wrapped in a `PromiseSameUniverseContext` whose universe is `other`'s
universe; the result table takes that universe. -/
def Table.unsafePromiseUniverse (t : Table) (other : Table) : Table :=
  t.tableWithContext ⟨CtxKind.promiseSameUniverse, other.univ⟩

/-- Embeds `Table.with_universe_of` (table.py:1720-1749): identical
universe objects yield `self.copy()`; otherwise the solver receives a
`promise_are_equal` and the columns are wrapped via
`_unsafe_promise_universe`. -/
def Table.withUniverseOf (s : Solver) (t other : Table) :
    Except String (Solver × Table) :=
  if t.univ = other.univ then Except.ok (s, t.copy)
  else
    match s.promiseAreEqual t.univ other.univ with
    | Except.error e => Except.error e
    | Except.ok s' => Except.ok (s', t.unsafePromiseUniverse other)

def Table.keys (t : Table) : List String := t.columns.map Prod.fst

/-- Python `dict.keys()` equality is set-like: the embedding compares key
lists as sets. -/
def keySetEq (a b : List String) : Bool :=
  a.all (fun k => b.contains k) && b.all (fun k => a.contains k)

/-- Embeds `Table.cast_to_types`/`with_columns`/`select` at the schema
level (table.py:1694-1706, 1309-1338, 367-407): every column is re-wrapped
in the table's rowwise context, with the dtypes of the named columns
replaced by the cast targets. -/
def Table.castToTypes (t : Table) (sch : List (String × DType)) : Table :=
  mkTable t.tid
    (t.columns.map
      (fun nc =>
        (nc.1,
          Column.mk t.univ ((alookup sch nc.1).getD nc.2.dtype)
            (some ⟨CtxKind.rowwise, t.univ⟩))))
    t.univ none

/-- Embeds `Table.update_types`/`declare_type` at the schema level
(table.py:1679-1692): the named column's dtype is replaced, every column is
re-wrapped rowwise. -/
def Table.updateTypes (t : Table) (name : String) (d : DType) : Table :=
  mkTable t.tid
    (t.columns.map
      (fun nc =>
        (nc.1,
          Column.mk t.univ (if nc.1 = name then d else nc.2.dtype)
            (some ⟨CtxKind.rowwise, t.univ⟩))))
    t.univ none

/-- Embeds the per-key LCA dtype merge of `Table.concat`
(table.py:1084-1091) and `Table.update_rows` (table.py:1271-1274):
`functools.reduce(types_lca, [other dtypes], self dtype)` for each key of
`self`; `none` when some LCA does not exist (TypeError). -/
def lcaAt (t : Table) (others : List Table) (key : String) : Option DType :=
  others.foldl
    (fun acc o => do
      let a ← acc
      let d ← alookup o.schema key
      types_lca a d)
    (alookup t.schema key)

def lcaSchemaAux (t : Table) (others : List Table) :
    List (String × Column) → Option (List (String × DType))
  | [] => some []
  | nc :: rest =>
    match lcaAt t others nc.1, lcaSchemaAux t others rest with
    | some d, some tail => some ((nc.1, d) :: tail)
    | _, _ => none

def lcaSchema (t : Table) (others : List Table) :
    Option (List (String × DType)) :=
  lcaSchemaAux t others t.columns

/-- Embeds `Table._concat` (table.py:1100-1127): error unless the solver
proves all argument universes pairwise disjoint; otherwise the result
universe is the solver's union and the columns are wrapped in a
`ConcatUnsafeContext` over it. -/
def Table.concatUnsafe (s : Solver) (t : Table) (others : List Table) :
    Except String (Solver × Table) :=
  if !s.queryAreDisjoint (t.univ :: others.map Table.univ) then
    Except.error
      "ValueError: Universes of the arguments of Table.concat() have to be disjoint."
  else
    Except.ok ((s.getUnion t.univ (others.map Table.univ)).2,
      t.tableWithContext
        ⟨CtxKind.concatUnsafe, (s.getUnion t.univ (others.map Table.univ)).1⟩)

/-- Embeds `Table.concat` (table.py:1035-1096): key-set check, LCA schema
merge, cast of every argument, then `_concat`. The first component is the
list of warnings issued (always empty: this path never warns). -/
def Table.concat (s : Solver) (t : Table) (others : List Table) :
    List String × Except String (Solver × Table) :=
  if !others.all (fun o => keySetEq o.keys t.keys) then
    ([], Except.error "ValueError: columns do not match in the argument of Table.concat()")
  else
    match lcaSchema t others with
    | none => ([], Except.error "TypeError: no common supertype")
    | some sch =>
      ([], Table.concatUnsafe s (t.castToTypes sch)
        (others.map (fun o => o.castToTypes sch)))

/-- Embeds `Table._update_rows` (table.py:1282-1305): result universe is
the solver's union; the context is `UpdateCellsContext` when that union is
`self`'s universe and `UpdateRowsContext` otherwise. -/
def Table.updateRowsUnsafe (s : Solver) (t other : Table) :
    Solver × Table :=
  ((s.getUnion t.univ [other.univ]).2,
    t.tableWithContext
      ⟨if (s.getUnion t.univ [other.univ]).1 = t.univ then
          CtxKind.updateCells
        else CtxKind.updateRows,
        (s.getUnion t.univ [other.univ]).1⟩)

/-- Embeds `Table.update_rows` (table.py:1223-1277): key-set check; if the
solver proves `self.U ⊆ other.U`, a warning is issued and `other` itself is
returned, skipping the LCA merge; otherwise LCA merge, cast, and
`_update_rows`. First component: warnings issued. -/
def Table.updateRows (s : Solver) (t other : Table) :
    List String × Except String (Solver × Table) :=
  if !keySetEq other.keys t.keys then
    ([], Except.error
      "ValueError: Columns do not match between argument of Table.update_rows() and the updated table.")
  else if s.queryIsSubset t.univ other.univ then
    (["Universe of self is a subset of universe of other in update_rows. Returning other."],
      Except.ok (s, other))
  else
    match lcaSchema t [other] with
    | none => ([], Except.error "TypeError: no common supertype")
    | some sch =>
      ([], Except.ok
        (Table.updateRowsUnsafe s (t.castToTypes sch) (other.castToTypes sch)))

/-- Modelled from the spec: the boolean filter expressions the claims need
(§4.D; `expression.py` is not under src/). `isNotNone tableId colName`
stands for the syntactic pattern `col is not None` over a column reference
whose owning table has identity `tableId`; `otherExpr d` stands for any
other expression of inferred dtype `d`. -/
inductive FilterExpr : Type
  | isNotNone (tableId : Nat) (colName : String)
  | otherExpr (dtype : DType)
deriving DecidableEq, Repr

/-- Modelled from the spec: the type interpreter assigns `bool` to an
`is not None` comparison and the recorded dtype to any other expression. -/
def FilterExpr.evalType : FilterExpr → DType
  | FilterExpr.isNotNone _ _ => DType.bool
  | FilterExpr.otherExpr d => d

/-- Modelled from the spec: `get_column_filtered_by_is_none` recognizes the
syntactic pattern `col is not None` and returns that column reference
(§4.D). -/
def getColumnFilteredByIsNone : FilterExpr → Option (Nat × String)
  | FilterExpr.isNotNone tid name => some (tid, name)
  | FilterExpr.otherExpr _ => none

/-- Embeds `Table._filter` (table.py:513-522): fresh subset universe,
`FilterContext`, schema preserved. -/
def Table.filterUnsafe (s : Solver) (t : Table) : Solver × Table :=
  ((s.subsetUniverse t.univ).2,
    t.tableWithContext ⟨CtxKind.filterCtx, (s.subsetUniverse t.univ).1⟩)

/-- Embeds `Table.filter` (table.py:475-511): TypeError unless the
expression has dtype bool; `_filter`; then, when the expression is
`col is not None` with `col` a column of `self` itself, the result column's
dtype is narrowed via `unoptionalize`. -/
def Table.filter (s : Solver) (t : Table) (e : FilterExpr) :
    Except String (Solver × Table) :=
  if e.evalType ≠ DType.bool then
    Except.error "TypeError: Filter argument of Table.filter() has to be bool."
  else
    match getColumnFilteredByIsNone e with
    | some tn =>
      if tn.1 = t.tid then
        match alookup t.columns tn.2 with
        | none => Except.error "KeyError"
        | some c =>
          Except.ok ((t.filterUnsafe s).1,
            (t.filterUnsafe s).2.updateTypes tn.2 (unoptionalize c.dtype))
      else Except.ok (t.filterUnsafe s)
    | none => Except.ok (t.filterUnsafe s)

/-- Embeds `Table.restrict` (table.py:700-738): error unless the solver
proves `other.U ⊆ self.U`; otherwise columns wrapped in a
`RestrictContext` whose universe is `other`'s. -/
def Table.restrict (s : Solver) (t other : Table) : Except String Table :=
  if !s.queryIsSubset other.univ t.univ then
    Except.error
      "ValueError: Table.restrict(): other universe has to be a subset of self universe."
  else Except.ok (t.tableWithContext ⟨CtxKind.restrictCtx, other.univ⟩)

/-- Embeds the `update_types` loop of `Table.ix` (table.py:968-971): every
column dtype wrapped in `Optional`, columns re-wrapped rowwise. -/
def Table.optionalizeAll (t : Table) : Table :=
  mkTable t.tid
    (t.columns.map
      (fun nc =>
        (nc.1,
          Column.mk t.univ (mkOptional nc.2.dtype)
            (some ⟨CtxKind.rowwise, t.univ⟩))))
    t.univ none

/-- Embeds the key-dtype check and dispatch of `Table.ix`
(table.py:961-974) together with `Table._ix` (table.py:976-988):
`keyDtype` is the inferred dtype of the key expression and `keyUniv` the
universe of the key's table; TypeError iff
`(optional ∧ ¬dtype_issubclass keyDtype Optional(Pointer))` or
`(¬optional ∧ keyDtype` is not a non-optional `Pointer)`; the columns
become `Optional` only when `optional` holds and the key dtype is
optional. -/
def Table.ix (t : Table) (keyDtype : DType) (keyUniv : Nat)
    (optional : Bool) : Except String Table :=
  if (optional && !dtype_issubclass keyDtype (DType.optional DType.pointer))
      || (!optional && !keyDtype.isPointer) then
    Except.error
      "TypeError: Pathway supports indexing with Pointer type only."
  else
    let t' := if optional && keyDtype.isOptional then t.optionalizeAll else t
    Except.ok (t'.tableWithContext ⟨CtxKind.ixCtx, keyUniv⟩)

/-- Embeds `Table._from_schema` (table.py:1954-1963): one materialized
column per schema name over a fresh universe (passed as a parameter), the
given schema stored explicitly. -/
def Table.fromSchema (tid : Nat) (sch : List (String × DType)) (u : Nat) :
    Table :=
  ⟨tid, sch.map (fun nd => (nd.1, Column.mk u nd.2 none)), u, sch⟩

/-- Embeds `Table._flatten` (table.py:1800-1835): a fresh universe (passed
as a parameter), a materialized result column whose dtype comes from
`FlattenContext.get_flatten_column_dtype` (column.py, not under src/ —
passed as a parameter), and every other column wrapped in the
`FlattenContext`. -/
def Table.flattenInner (t : Table) (name : String) (freshU : Nat)
    (resDtype : DType) : Table :=
  mkTable t.tid
    ((name, Column.mk freshU resDtype none) ::
      ((t.columns.filter (fun nc => nc.1 ≠ name)).map
        (fun nc =>
          (nc.1, wrapColumnInContext ⟨CtxKind.flattenCtx, freshU⟩ nc.2))))
    freshU none

/-! ### Scope lowering state (`graph_runner/state.py`) -/

/-- A logical column as the scope state keys it: its identity and its
universe (`column.universe` is the only attribute `state.py` reads). -/
structure LogicalColumn : Type where
  cid : Nat
  univ : Nat
deriving DecidableEq, Repr

/-- An engine column handle (`api.Column`): `state.py` reads its
`.universe` attribute; `handle` stands for the rest of the opaque engine
object. -/
structure ApiColumn : Type where
  univ : Nat
  handle : Nat
deriving DecidableEq, Repr

/-- Modelled from the spec: a `Storage` is a per-universe layout declaring
which columns are co-located and their column paths (§4.H;
`path_storage.py` is not under src/). `has_column` is membership and
`get_path` the recorded path. -/
structure Storage : Type where
  univ : Nat
  cols : List (Nat × Nat)
deriving DecidableEq, Repr

def Storage.hasColumn (st : Storage) (c : LogicalColumn) : Bool :=
  (alookup st.cols c.cid).isSome

def Storage.getPath (st : Storage) (c : LogicalColumn) : Option Nat :=
  alookup st.cols c.cid

/-- The engine scope, an external collaborator with the synchronous
interface fixed in §6: `table_universe(table) → Universe` and
`table_column(universe, table, path) → Column`, embedded as pure oracles;
`table_column` returns a column living in the universe it is given. -/
structure Scope : Type where
  tableUniverse : Nat → Nat
  tableColumn : Nat → Nat → Nat → Nat

/-- The error kinds `state.py` can raise: `OutOfScopeError` (recoverable
sentinel), a failed `assert` (fatal `AssertionError`), and a `KeyError`
from a raw dict access. -/
inductive ScopeErr : Type
  | outOfScope
  | assertionFailed
  | keyError
deriving DecidableEq, Repr

/-- Embeds `ScopeState` (state.py:17-34): the per-scope caches, plus a
counter of engine invocations (`calls`) making "the engine is not
consulted again" expressible. -/
structure ScopeState : Type where
  scope : Scope
  columns : List (LogicalColumn × ApiColumn)
  universes : List (Nat × Nat)
  tables : List (Nat × Nat)
  storages : List (Nat × Storage)
  calls : Nat

/-- Embeds `ScopeState.get_storage` (state.py:169-172). -/
def ScopeState.getStorage (s : ScopeState) (u : Nat) :
    Except ScopeErr Storage :=
  match alookup s.storages u with
  | none => Except.error ScopeErr.outOfScope
  | some st => Except.ok st

/-- Embeds `ScopeState.get_table` (state.py:162-163): a raw dict access,
`KeyError` when absent. -/
def ScopeState.getTable (s : ScopeState) (st : Storage) :
    Except ScopeErr Nat :=
  match alookup s.tables st.univ with
  | none => Except.error ScopeErr.keyError
  | some t => Except.ok t

/-- Embeds `ScopeState.set_universe` (state.py:124-128): an existing entry
is never replaced — the overwrite path asserts equality of the handles and
returns with the map unchanged. -/
def ScopeState.setUniverse (s : ScopeState) (u e : Nat) :
    Except ScopeErr ScopeState :=
  match alookup s.universes u with
  | some e' =>
    if e' = e then Except.ok s else Except.error ScopeErr.assertionFailed
  | none => Except.ok { s with universes := (u, e) :: s.universes }

/-- Embeds `ScopeState.has_universe` (state.py:135-136): pure cache
membership. -/
def ScopeState.hasUniverse (s : ScopeState) (u : Nat) : Bool :=
  (alookup s.universes u).isSome

/-- Embeds `ScopeState.extract_universe` (state.py:36-41). -/
def ScopeState.extractUniverse (s : ScopeState) (u : Nat) :
    Except ScopeErr (Nat × ScopeState) :=
  match s.getStorage u with
  | Except.error e => Except.error e
  | Except.ok st =>
    match s.getTable st with
    | Except.error e => Except.error e
    | Except.ok et =>
      let eu := s.scope.tableUniverse et
      match ScopeState.setUniverse { s with calls := s.calls + 1 } u eu with
      | Except.error e => Except.error e
      | Except.ok s' => Except.ok (eu, s')

/-- Embeds `ScopeState.get_universe` (state.py:130-133). -/
def ScopeState.getUniverse (s : ScopeState) (u : Nat) :
    Except ScopeErr (Nat × ScopeState) :=
  match alookup s.universes u with
  | none => s.extractUniverse u
  | some e => Except.ok (e, s)

/-- Embeds `ScopeState.set_column` (state.py:70-72): caches the engine
column, then caches its universe via `set_universe`. -/
def ScopeState.setColumn (s : ScopeState) (c : LogicalColumn)
    (v : ApiColumn) : Except ScopeErr ScopeState :=
  ScopeState.setUniverse { s with columns := (c, v) :: s.columns } c.univ
    v.univ

/-- Embeds `ScopeState.extract_column` (state.py:43-58), in the source's
order: storage lookup, storage-membership check, engine table lookup,
universe resolution (cached or extracted), engine `table_column` call,
cache via `set_column`. -/
def ScopeState.extractColumn (s : ScopeState) (c : LogicalColumn) :
    Except ScopeErr (ApiColumn × ScopeState) :=
  match s.getStorage c.univ with
  | Except.error e => Except.error e
  | Except.ok st =>
    if !st.hasColumn c then Except.error ScopeErr.outOfScope
    else
      match s.getTable st with
      | Except.error e => Except.error e
      | Except.ok et =>
        match
          (if !s.hasUniverse c.univ then s.extractUniverse c.univ
            else s.getUniverse c.univ) with
        | Except.error e => Except.error e
        | Except.ok eus =>
          match st.getPath c with
          | none => Except.error ScopeErr.keyError
          | some path =>
            match ScopeState.setColumn { eus.2 with calls := eus.2.calls + 1 }
                c ⟨eus.1, eus.2.scope.tableColumn eus.1 et path⟩ with
            | Except.error e => Except.error e
            | Except.ok s' =>
              Except.ok (⟨eus.1, eus.2.scope.tableColumn eus.1 et path⟩, s')

/-- Embeds `ScopeState.get_column` (state.py:74-78). -/
def ScopeState.getColumn (s : ScopeState) (c : LogicalColumn) :
    Except ScopeErr (ApiColumn × ScopeState) :=
  match alookup s.columns c with
  | none => s.extractColumn c
  | some v => Except.ok (v, s)

/-- Embeds `ScopeState.has_column` (state.py:80-85): `get_column` with
only `OutOfScopeError` caught; any other exception propagates, and a
failure leaves the state as it was (the source raises before any
mutation). -/
def ScopeState.hasColumn (s : ScopeState) (c : LogicalColumn) :
    Except ScopeErr (Bool × ScopeState) :=
  match s.getColumn c with
  | Except.ok vs => Except.ok (true, vs.2)
  | Except.error ScopeErr.outOfScope => Except.ok (false, s)
  | Except.error e => Except.error e

/-- The state well-formedness maintained by `set_table` (state.py:165-167),
the only writer of `storages` and `tables`: every universe with a
registered storage also has a registered engine table. -/
def ScopeState.WF (s : ScopeState) : Prop :=
  ∀ u st, alookup s.storages u = some st →
    ∃ t, alookup s.tables st.univ = some t

/-! ### Auxiliary definitions for the claim statements -/

/-- Whether an `Except` computation raised. -/
def isErr {ε α : Type} : Except ε α → Bool
  | Except.error _ => true
  | Except.ok _ => false

/-- The storage-side condition of claim C9: `C`'s universe has no
registered storage, or the registered storage does not contain `C`. -/
def outOfScopeCond (s : ScopeState) (c : LogicalColumn) : Bool :=
  match alookup s.storages c.univ with
  | none => true
  | some st => !st.hasColumn c

/-- The table invariant of claim C6: the schema's ordered names equal the
column mapping's names in the same order, and every column's universe is
the table's universe. -/
def TableInv (t : Table) : Prop :=
  t.schema.map Prod.fst = t.columns.map Prod.fst ∧
  ∀ nc ∈ t.columns, nc.2.univ = t.univ

/-- The tables produced by the modelled public operators: base tables from
a schema, closed under `copy`, `filter`, `concat`, `update_rows`,
`with_universe_of`, `restrict`, `ix` and `flatten`. -/
inductive Produced : Table → Prop
  | fromSchema (tid : Nat) (sch : List (String × DType)) (u : Nat) :
      Produced (Table.fromSchema tid sch u)
  | copy (t : Table) : Produced t → Produced t.copy
  | filterOp (s : Solver) (t : Table) (e : FilterExpr) (s' : Solver)
      (tr : Table) : Produced t → Table.filter s t e = Except.ok (s', tr) →
      Produced tr
  | concatOp (s : Solver) (t : Table) (others : List Table) (w : List String)
      (s' : Solver) (tr : Table) : Produced t →
      Table.concat s t others = (w, Except.ok (s', tr)) → Produced tr
  | updateRowsOp (s : Solver) (t other : Table) (w : List String)
      (s' : Solver) (tr : Table) : Produced t → Produced other →
      Table.updateRows s t other = (w, Except.ok (s', tr)) → Produced tr
  | withUniverseOfOp (s : Solver) (t other : Table) (s' : Solver)
      (tr : Table) : Produced t →
      Table.withUniverseOf s t other = Except.ok (s', tr) → Produced tr
  | restrictOp (s : Solver) (t other : Table) (tr : Table) : Produced t →
      Table.restrict s t other = Except.ok tr → Produced tr
  | ixOp (t : Table) (kd : DType) (ku : Nat) (opt : Bool) (tr : Table) :
      Produced t → Table.ix t kd ku opt = Except.ok tr → Produced tr
  | flattenOp (t : Table) (name : String) (u : Nat) (d : DType) :
      Produced t → Produced (t.flattenInner name u d)

/-! ### Concrete instances used by counterexamples and witnesses -/

/-- A one-column table over universe 0 with table identity 0. -/
def tblA : Table := Table.fromSchema 0 [("a", DType.int)] 0

/-- A one-column table over universe 1 with table identity 1. -/
def tblB : Table := Table.fromSchema 1 [("a", DType.int)] 1

/-- A solver that has been promised `U0 = U1` and nothing else. -/
def solverEq01 : Solver := ⟨[(0, 1)], [], [], 10⟩

/-- A solver that has been promised `U0` and `U1` disjoint. -/
def solverDisj01 : Solver := ⟨[], [(0, 1)], [], 10⟩

/-- A solver that has been promised `U0 ⊆ U1`. -/
def solverSub01 : Solver := ⟨[], [], [(0, 1)], 10⟩

/-- A solver that knows nothing, with fresh counter 10. -/
def solverBlank : Solver := ⟨[], [], [], 10⟩

/-- A table with one optional and one non-optional column, for the filter
narrowing witness. -/
def tblOpt : Table :=
  Table.fromSchema 0 [("a", DType.optional DType.int), ("b", DType.str)] 0

/-- A table whose only column has a dtype with no common supertype with
`tblA`'s, for the update-rows shortcut witness. -/
def tblPtr : Table := Table.fromSchema 1 [("a", DType.pointer)] 1

/-- A concrete engine scope oracle. -/
def scope0 : Scope := ⟨fun t => t + 100, fun _ _ _ => 7⟩

/-- A scope state whose universe cache holds `0 ↦ 5` and nothing else. -/
def sstate0 : ScopeState := ⟨scope0, [], [(0, 5)], [], [], 0⟩

/-- A logical column with identity 0 living in logical universe 0. -/
def lcol0 : LogicalColumn := ⟨0, 0⟩

/-- A scope state that has `lcol0` in its column cache but no storage
registered at all (reachable through `set_legacy_table`). -/
def sstateCached : ScopeState := ⟨scope0, [(lcol0, ⟨5, 7⟩)], [], [], [], 0⟩

/-- A logical column with identity 0 living in logical universe 3. -/
def lcol3 : LogicalColumn := ⟨0, 3⟩

/-- A scope state with a storage and engine table registered for logical
universe 3 but empty caches. -/
def sstateStored : ScopeState :=
  ⟨scope0, [], [], [(3, 42)], [(3, ⟨3, [(0, 9)]⟩)], 0⟩

/-- The state `sstateStored` after resolving `lcol3`: the engine was
consulted twice (universe, then column), and both caches are filled. -/
def sstateStored' : ScopeState :=
  ⟨scope0, [(lcol3, ⟨142, 7⟩)], [(3, 142)], [(3, 42)],
    [(3, ⟨3, [(0, 9)]⟩)], 2⟩

/-! ## Theorems settling the claims -/

/-- Helper: `cast_to_types` preserves the table's universe. -/
theorem castToTypes_univ (t : Table) (sch : List (String × DType)) :
    (t.castToTypes sch).univ = t.univ := rfl

/-- Helper: `_table_with_context` takes the context's universe. -/
theorem tableWithContext_univ (t : Table) (c : Ctx) :
    (t.tableWithContext c).univ = c.univ := rfl

/-- Helper: `isErr` of a raise-or-return conditional is the raise
condition. -/
theorem isErr_ite {ε α : Type} (c : Prop) [Decidable c] (e : ε) (a : α) :
    isErr (if c then Except.error e else Except.ok a) = decide c := by
  by_cases h : c <;> simp [h, isErr]

/-- Helper: `isErr` of a return-or-raise conditional is the negated
condition. -/
theorem isErr_ite_ok {ε α : Type} (c : Prop) [Decidable c] (a : α) (e : ε) :
    isErr (if c then Except.ok a else Except.error e) = !(decide c) := by
  by_cases h : c <;> simp [h, isErr]

/-- Claim C1 counterexample: with `optional=True`, a key expression whose
inferred dtype is the non-optional `Pointer` is accepted by `Table.ix` —
no `TypeError` is raised, because the check at table.py:962-964 passes via
`dtype_issubclass(Pointer, Optional(Pointer))`. -/
theorem ix_optional_accepts_plain_pointer :
    DType.isPointer DType.pointer = true ∧
    DType.isOptional DType.pointer = false ∧
    dtype_issubclass DType.pointer (DType.optional DType.pointer) = true ∧
    isErr (Table.ix tblA DType.pointer 5 true) = false :=
  ⟨rfl, rfl, rfl, rfl⟩

/-- Claim C1 (amended): `Table.ix` raises `TypeError` exactly when with
`optional=True` the key dtype is neither `Pointer` nor `Optional(Pointer)`
— both of those are accepted — and with `optional=False` the key dtype is
not the non-optional `Pointer` (table.py:961-967). -/
theorem ix_type_check_characterization (t : Table) (keyDtype : DType)
    (ku : Nat) :
    (isErr (Table.ix t keyDtype ku true) =
      !(decide (keyDtype = DType.pointer)
        || decide (keyDtype = DType.optional DType.pointer))) ∧
    (isErr (Table.ix t keyDtype ku false) =
      !(decide (keyDtype = DType.pointer))) := by
  constructor
  · cases keyDtype <;>
      simp [Table.ix, isErr_ite, isErr_ite_ok, dtype_issubclass,
        DType.isPointer] <;>
      simp [isErr]
  · cases keyDtype <;>
      simp [Table.ix, isErr_ite, isErr_ite_ok, dtype_issubclass,
        DType.isPointer] <;>
      simp [isErr]

/-- Claim C7: `set_universe` never replaces an existing entry — re-caching
the already-stored engine handle returns with the state unchanged, and a
different handle fails the fatal assertion (state.py:124-128). -/
theorem set_universe_monotone (s : ScopeState) (u e : Nat)
    (h : alookup s.universes u = some e) :
    s.setUniverse u e = Except.ok s ∧
    ∀ e', e' ≠ e →
      s.setUniverse u e' = Except.error ScopeErr.assertionFailed := by
  unfold ScopeState.setUniverse
  rw [h]
  exact ⟨by simp, fun e' he' => by simp [Ne.symm he']⟩

/-- Claim C7 witness: the theorem applied at the concrete state `sstate0`,
which caches engine handle 5 for logical universe 0. -/
theorem set_universe_monotone_witness :
    sstate0.setUniverse 0 5 = Except.ok sstate0 ∧
    sstate0.setUniverse 0 6 = Except.error ScopeErr.assertionFailed :=
  ⟨(set_universe_monotone sstate0 0 5 rfl).1,
    (set_universe_monotone sstate0 0 5 rfl).2 6 (by decide)⟩

/-- Claim C2 counterexample: the guard of `with_universe_of`
(table.py:1746) is Python object identity of the universes, not a solver
query — here the solver proves `U0 = U1` (a recorded promise), yet
`with_universe_of` does not return a copy of `self`: the result lives in
universe 1 while every copy of `self` lives in `self`'s universe 0. -/
theorem with_universe_of_solver_equal_not_copy :
    solverEq01.queryAreEqual tblA.univ tblB.univ = true ∧
    tblA.univ = 0 ∧ tblB.univ = 1 ∧
    (Table.withUniverseOf solverEq01 tblA tblB).toOption.map
      (fun p => p.2.univ) = some 1 ∧
    (Table.copy tblA).univ = 0 := by
  refine ⟨by decide, rfl, rfl, by decide, rfl⟩

/-- Claim C2 (amended): `with_universe_of` returns a no-op copy of `self`
exactly when the two universes are the same universe object; when they are
distinct (even if the solver proves them equal) it records a
`promise_are_equal` with the solver and wraps every column of `self` in a
`PromiseSameUniverse` context carrying `other`'s universe
(table.py:1746-1749, 1881-1894) — provided the promise does not contradict
a recorded disjointness. -/
theorem with_universe_of_branches (s : Solver) (t other : Table) :
    (t.univ = other.univ →
      Table.withUniverseOf s t other = Except.ok (s, t.copy)) ∧
    (t.univ ≠ other.univ →
      s.queryAreDisjointPair t.univ other.univ = false →
      Table.withUniverseOf s t other =
        Except.ok
          ({ s with eqPairs := (t.univ, other.univ) :: s.eqPairs },
            t.unsafePromiseUniverse other) ∧
      ∀ nc ∈ (t.unsafePromiseUniverse other).columns,
        nc.2.ctx = some ⟨CtxKind.promiseSameUniverse, other.univ⟩ ∧
        nc.2.univ = other.univ) := by
  constructor
  · intro h
    simp [Table.withUniverseOf, h]
  · intro hne hdisj
    constructor
    · simp [Table.withUniverseOf, hne, Solver.promiseAreEqual, hdisj]
    · intro nc hnc
      simp only [Table.unsafePromiseUniverse, Table.tableWithContext,
        mkTable, List.mem_map] at hnc
      obtain ⟨orig, _, horig⟩ := hnc
      subst horig
      exact ⟨rfl, rfl⟩

/-- Claim C2 witness: the amended theorem applied at the concrete solver
`solverEq01` and tables `tblA`, `tblB` with distinct universes 0 and 1. -/
theorem with_universe_of_branches_witness :
    Table.withUniverseOf solverEq01 tblA tblB =
      Except.ok
        ({ solverEq01 with
            eqPairs := (tblA.univ, tblB.univ) :: solverEq01.eqPairs },
          tblA.unsafePromiseUniverse tblB) :=
  (((with_universe_of_branches solverEq01 tblA tblB).2 (by decide)
    (by decide))).1

/-- Claim C4: with identical column key-sets, when the solver proves
`self.U ⊆ other.U`, `update_rows` issues exactly one non-fatal warning and
returns the object `other` itself, with the solver untouched — the LCA
dtype merge and the construction of a new table are skipped
(table.py:1261-1269). -/
theorem update_rows_subset_shortcut (s : Solver) (t other : Table)
    (hk : keySetEq other.keys t.keys = true)
    (hs : s.queryIsSubset t.univ other.univ = true) :
    Table.updateRows s t other =
      (["Universe of self is a subset of universe of other in update_rows. Returning other."],
        Except.ok (s, other)) := by
  simp [Table.updateRows, hk, hs]

/-- Claim C4 witness: the theorem applied at tables whose column dtypes
(`str` versus `pointer`) have no common supertype — the shortcut returns
`other` anyway, showing the LCA merge is skipped. -/
theorem update_rows_subset_shortcut_witness :
    lcaAt (Table.fromSchema 0 [("a", DType.str)] 0) [tblPtr] "a" = none ∧
    Table.updateRows solverSub01 (Table.fromSchema 0 [("a", DType.str)] 0)
        tblPtr =
      (["Universe of self is a subset of universe of other in update_rows. Returning other."],
        Except.ok (solverSub01, tblPtr)) :=
  ⟨by simp [lcaAt, Table.fromSchema, tblPtr, alookup, types_lca],
    update_rows_subset_shortcut solverSub01
      (Table.fromSchema 0 [("a", DType.str)] 0) tblPtr (by decide)
      (by decide)⟩

/-- Helper: looking a key up in a key-preserving per-entry rewrite of an
association list applies the rewrite to the found entry. -/
theorem alookup_map_g {α β γ : Type} [DecidableEq α] (g : α × β → α × γ)
    (hg : ∀ p, (g p).1 = p.1) (l : List (α × β)) (a : α) :
    alookup (l.map g) a = (alookup l a).map (fun b => (g (a, b)).2) := by
  induction l with
  | nil => rfl
  | cons hd tl ih =>
    obtain ⟨k, v⟩ := hd
    by_cases h : k = a
    · subst h
      simp [alookup, hg]
    · simp [alookup, hg, h, ih]

/-- Claim C5: for a boolean filter expression of the syntactic form
`col is not None` where `col` is a column of the table itself, `filter`
succeeds and the result narrows that column's dtype via `unoptionalize`
while every other column keeps its dtype (table.py:499-511). -/
theorem filter_is_not_none_narrows (s : Solver) (t : Table) (name : String)
    (c : Column) (hc : alookup t.columns name = some c) :
    ∃ s' tr,
      Table.filter s t (FilterExpr.isNotNone t.tid name) =
        Except.ok (s', tr) ∧
      (alookup tr.columns name).map Column.dtype =
        some (unoptionalize c.dtype) ∧
      ∀ n' c', n' ≠ name → alookup t.columns n' = some c' →
        (alookup tr.columns n').map Column.dtype = some c'.dtype := by
  refine ⟨(Table.filterUnsafe s t).1,
    (Table.filterUnsafe s t).2.updateTypes name (unoptionalize c.dtype),
    ?_, ?_, ?_⟩
  · simp [Table.filter, FilterExpr.evalType, getColumnFilteredByIsNone, hc]
  · simp [Table.updateTypes, Table.filterUnsafe, Table.tableWithContext,
      mkTable, alookup_map_g, hc, -List.map_map]
  · intro n' c' hne hc'
    simp [Table.updateTypes, Table.filterUnsafe, Table.tableWithContext,
      mkTable, alookup_map_g, hc', hne, wrapColumnInContext, -List.map_map]

/-- Claim C5 witness: the theorem applied at the concrete table `tblOpt`
(`a : Optional(int)`, `b : str`): filtering on `a is not None` narrows
`a` to `int` and leaves `b` at `str`. -/
theorem filter_is_not_none_narrows_witness :
    ((Table.filter solverBlank tblOpt
          (FilterExpr.isNotNone tblOpt.tid "a")).toOption.bind
        (fun p => alookup p.2.columns "a")).map Column.dtype =
      some DType.int ∧
    ((Table.filter solverBlank tblOpt
          (FilterExpr.isNotNone tblOpt.tid "a")).toOption.bind
        (fun p => alookup p.2.columns "b")).map Column.dtype =
      some DType.str := by
  obtain ⟨s', tr, h1, h2, h3⟩ :=
    filter_is_not_none_narrows solverBlank tblOpt "a"
      ⟨0, DType.optional DType.int, none⟩ rfl
  rw [h1]
  exact ⟨h2, h3 "b" ⟨0, DType.str, none⟩ (by decide) rfl⟩

/-- Claim C3: for `concat` arguments with identical column key-sets whose
LCA schema merge succeeds, no warning is ever issued; if the solver cannot
prove the argument universes pairwise disjoint the call raises an error,
and when disjointness is proven the result table's universe is the
solver's union of the argument universes (table.py:1078-1096,
1100-1116). -/
theorem concat_disjointness (s : Solver) (t : Table) (others : List Table)
    (sch : List (String × DType))
    (hk : others.all (fun o => keySetEq o.keys t.keys) = true)
    (hlca : lcaSchema t others = some sch) :
    (Table.concat s t others).1 = [] ∧
    (s.queryAreDisjoint (t.univ :: others.map Table.univ) = false →
      ∃ e, (Table.concat s t others).2 = Except.error e) ∧
    (s.queryAreDisjoint (t.univ :: others.map Table.univ) = true →
      ∃ s' tr, (Table.concat s t others).2 = Except.ok (s', tr) ∧
        tr.univ = (s.getUnion t.univ (others.map Table.univ)).1) := by
  have hmap :
      (others.map (fun o => o.castToTypes sch)).map Table.univ =
        others.map Table.univ := by
    rw [List.map_map]
    rfl
  have hred : Table.concat s t others =
      ([], Table.concatUnsafe s (t.castToTypes sch)
        (others.map (fun o => o.castToTypes sch))) := by
    simp [Table.concat, hk, hlca]
  refine ⟨by rw [hred], ?_, ?_⟩
  · intro hdisj
    rw [hred]
    simp only [Table.concatUnsafe, castToTypes_univ, hmap, hdisj]
    exact ⟨_, rfl⟩
  · intro hdisj
    rw [hred]
    simp only [Table.concatUnsafe, castToTypes_univ, hmap, hdisj]
    exact ⟨_, _, rfl, tableWithContext_univ _ _⟩

/-- Claim C3 witness: the theorem applied at `tblA`, `tblB` (shared key
set, both columns `int`): under the blank solver the disjointness query
fails and `concat` errors; under the solver with a recorded `U0`/`U1`
disjointness it succeeds with the union universe. -/
theorem concat_disjointness_witness :
    solverBlank.queryAreDisjoint [tblA.univ, tblB.univ] = false ∧
    (∃ e, (Table.concat solverBlank tblA [tblB]).2 = Except.error e) ∧
    solverDisj01.queryAreDisjoint [tblA.univ, tblB.univ] = true ∧
    (∃ s' tr, (Table.concat solverDisj01 tblA [tblB]).2 =
        Except.ok (s', tr) ∧
      tr.univ = (solverDisj01.getUnion tblA.univ [tblB.univ]).1) := by
  have hlca : lcaSchema tblA [tblB] = some [("a", DType.int)] := by
    simp [lcaSchema, lcaSchemaAux, lcaAt, tblA, tblB, Table.fromSchema,
      alookup, types_lca]
  refine ⟨by decide, ?_, by decide, ?_⟩
  · exact (concat_disjointness solverBlank tblA [tblB] [("a", DType.int)]
      (by decide) hlca).2.1 (by decide)
  · exact (concat_disjointness solverDisj01 tblA [tblB] [("a", DType.int)]
      (by decide) hlca).2.2 (by decide)

/-- Claim C10: `has_universe` only tests membership in the universe cache
(state.py:135-136); at the concrete state `sstateStored` — storage and
engine table registered for universe 3, caches empty — `has_universe`
answers `false` while `get_universe` succeeds by extraction, and
`has_column` performs full resolution before answering `true` (two engine
calls are made). -/
theorem has_universe_cache_only_asymmetric :
    (∀ s u, ScopeState.hasUniverse s u = (alookup s.universes u).isSome) ∧
    sstateStored.hasUniverse 3 = false ∧
    (∃ es, sstateStored.getUniverse 3 = Except.ok (142, es)) ∧
    sstateStored.hasColumn lcol3 =
      Except.ok (true, sstateStored') ∧
    sstateStored'.calls = sstateStored.calls + 2 := by
  refine ⟨fun s u => rfl, rfl, ⟨_, rfl⟩, rfl, rfl⟩

/-- Helper: `set_universe` never touches the column cache. -/
theorem setUniverse_columns (s : ScopeState) (u e : Nat) (s' : ScopeState)
    (h : s.setUniverse u e = Except.ok s') : s'.columns = s.columns := by
  unfold ScopeState.setUniverse at h
  split at h
  · split at h
    · cases h
      rfl
    · cases h
  · cases h
    rfl

/-- Helper: a successful `set_column` leaves the new binding at the front
of the column cache. -/
theorem setColumn_lookup (s : ScopeState) (c : LogicalColumn)
    (v : ApiColumn) (s' : ScopeState) (h : s.setColumn c v = Except.ok s') :
    alookup s'.columns c = some v := by
  unfold ScopeState.setColumn at h
  rw [setUniverse_columns _ _ _ _ h]
  simp [alookup]

/-- Helper: a successful `extract_column` caches the extracted handle. -/
theorem extractColumn_caches (s : ScopeState) (c : LogicalColumn)
    (v : ApiColumn) (s' : ScopeState)
    (h : s.extractColumn c = Except.ok (v, s')) :
    alookup s'.columns c = some v := by
  unfold ScopeState.extractColumn at h
  split at h
  · cases h
  · split at h
    · cases h
    · split at h
      · cases h
      · split at h
        · cases h
        · split at h
          · cases h
          · split at h
            · cases h
            · cases h
              exact setColumn_lookup _ _ _ _ (by assumption)

/-- Claim C8: resolution is idempotent — if `get_column` returns an engine
handle, the handle is cached, and calling `get_column` again on the
resulting state returns the identical handle with the state unchanged
(hence without consulting the engine: the `calls` counter stays put)
(state.py:74-78, 43-58). -/
theorem get_column_idempotent (s : ScopeState) (c : LogicalColumn)
    (v : ApiColumn) (s' : ScopeState)
    (h : s.getColumn c = Except.ok (v, s')) :
    alookup s'.columns c = some v ∧
    s'.getColumn c = Except.ok (v, s') := by
  have hcache : alookup s'.columns c = some v := by
    unfold ScopeState.getColumn at h
    cases hl : alookup s.columns c with
    | none =>
      rw [hl] at h
      exact extractColumn_caches _ _ _ _ h
    | some v0 =>
      rw [hl] at h
      cases h
      exact hl
  refine ⟨hcache, ?_⟩
  unfold ScopeState.getColumn
  rw [hcache]

/-- Claim C8 witness: the theorem applied at `sstateStored` and `lcol3`,
whose first resolution extracts handle `⟨142, 7⟩` and produces the state
`sstateStored'`. -/
theorem get_column_idempotent_witness :
    alookup sstateStored'.columns lcol3 = some ⟨142, 7⟩ ∧
    sstateStored'.getColumn lcol3 = Except.ok (⟨142, 7⟩, sstateStored') :=
  get_column_idempotent sstateStored lcol3 ⟨142, 7⟩ sstateStored' rfl

/-- Claim C9 counterexample: at the state `sstateCached` — reachable via
`set_legacy_table`, which fills the column cache without registering any
storage — `get_column` succeeds from the cache even though the storage
condition of the claim holds, so "raises `OutOfScopeError` exactly when
the universe has no registered storage or the storage lacks the column" is
false as stated (state.py:74-78 returns the cache before any storage
lookup). -/
theorem get_column_cached_without_storage :
    alookup sstateCached.storages lcol0.univ = none ∧
    outOfScopeCond sstateCached lcol0 = true ∧
    sstateCached.getColumn lcol0 = Except.ok (⟨5, 7⟩, sstateCached) :=
  ⟨rfl, rfl, rfl⟩

/-- Claim C9 (amended): for a column that is not yet cached, in a
well-formed scope state, `get_column` raises `OutOfScopeError` exactly
when the column's universe has no registered storage or the registered
storage does not contain the column; `has_column` catches exactly that
error and answers `false`, and answers `true` otherwise
(state.py:43-47, 74-85). -/
theorem get_column_out_of_scope_iff (s : ScopeState) (c : LogicalColumn)
    (hwf : s.WF) (hnc : alookup s.columns c = none) :
    (outOfScopeCond s c = true →
      s.getColumn c = Except.error ScopeErr.outOfScope ∧
      s.hasColumn c = Except.ok (false, s)) ∧
    (outOfScopeCond s c = false →
      ∃ v s', s.getColumn c = Except.ok (v, s') ∧
        s.hasColumn c = Except.ok (true, s')) := by
  have hgc : s.getColumn c = s.extractColumn c := by
    unfold ScopeState.getColumn
    rw [hnc]
  constructor
  · intro hcond
    unfold outOfScopeCond at hcond
    have herr : s.extractColumn c = Except.error ScopeErr.outOfScope := by
      unfold ScopeState.extractColumn
      cases hst : alookup s.storages c.univ with
      | none => simp [ScopeState.getStorage, hst]
      | some st =>
        rw [hst] at hcond
        simp only [Bool.not_eq_true'] at hcond
        simp [ScopeState.getStorage, hst, hcond]
    rw [hgc, herr]
    exact ⟨rfl, by unfold ScopeState.hasColumn; rw [hgc, herr]⟩
  · intro hcond
    unfold outOfScopeCond at hcond
    cases hst : alookup s.storages c.univ with
    | none =>
      rw [hst] at hcond
      simp at hcond
    | some st =>
      rw [hst] at hcond
      simp only [Bool.not_eq_false'] at hcond
      have hhas : st.hasColumn c = true := hcond
      obtain ⟨et, htab⟩ := hwf _ _ hst
      obtain ⟨p, hp⟩ : ∃ p, alookup st.cols c.cid = some p := by
        unfold Storage.hasColumn at hhas
        cases hpp : alookup st.cols c.cid with
        | none =>
          rw [hpp] at hhas
          simp at hhas
        | some p => exact ⟨p, rfl⟩
      by_cases hu : ScopeState.hasUniverse s c.univ
      · obtain ⟨e, he⟩ : ∃ e, alookup s.universes c.univ = some e := by
          unfold ScopeState.hasUniverse at hu
          exact Option.isSome_iff_exists.mp hu
        have hres : s.extractColumn c =
            Except.ok (⟨e, s.scope.tableColumn e et p⟩,
              { s with
                columns := (c, ⟨e, s.scope.tableColumn e et p⟩) :: s.columns,
                calls := s.calls + 1 }) := by
          unfold ScopeState.extractColumn
          simp only [ScopeState.getStorage, hst, hhas, Bool.not_true,
            Bool.false_eq_true, if_false, ScopeState.getTable, htab,
            ScopeState.hasUniverse, he, Option.isSome_some,
            ScopeState.getUniverse, Storage.getPath, hp,
            ScopeState.setColumn, ScopeState.setUniverse]
          simp [he]
        rw [hgc, hres]
        refine ⟨_, _, rfl, ?_⟩
        unfold ScopeState.hasColumn
        rw [hgc, hres]
      · have hnone : alookup s.universes c.univ = none := by
          unfold ScopeState.hasUniverse at hu
          cases hh : alookup s.universes c.univ with
          | none => rfl
          | some e =>
            rw [hh] at hu
            simp at hu
        have hres : s.extractColumn c =
            Except.ok
              (⟨s.scope.tableUniverse et,
                  s.scope.tableColumn (s.scope.tableUniverse et) et p⟩,
                { s with
                  columns :=
                    (c, ⟨s.scope.tableUniverse et,
                      s.scope.tableColumn (s.scope.tableUniverse et) et p⟩)
                      :: s.columns,
                  universes := (c.univ, s.scope.tableUniverse et)
                    :: s.universes,
                  calls := s.calls + 2 }) := by
          unfold ScopeState.extractColumn
          simp only [ScopeState.getStorage, hst, hhas, Bool.not_true,
            Bool.false_eq_true, if_false, ScopeState.getTable, htab,
            ScopeState.hasUniverse, hnone, Option.isSome_none,
            ScopeState.extractUniverse, Storage.getPath, hp,
            ScopeState.setColumn, ScopeState.setUniverse]
          simp [hnone, alookup]
        rw [hgc, hres]
        refine ⟨_, _, rfl, ?_⟩
        unfold ScopeState.hasColumn
        rw [hgc, hres]

/-- Helper: `sstateStored` is well formed — its only storage (universe 3)
has an engine table registered. -/
theorem sstateStored_wf : sstateStored.WF := by
  intro u st h
  unfold sstateStored alookup at h
  split at h
  · cases h
    exact ⟨42, rfl⟩
  · cases h

/-- Claim C9 witness: the amended theorem applied at `sstateStored` — for
column id 5 (absent from the storage) resolution raises `OutOfScopeError`
and `has_column` answers `false`; for `lcol3` (present) both succeed. -/
theorem get_column_out_of_scope_iff_witness :
    sstateStored.getColumn ⟨5, 3⟩ = Except.error ScopeErr.outOfScope ∧
    sstateStored.hasColumn ⟨5, 3⟩ = Except.ok (false, sstateStored) ∧
    (∃ v s', sstateStored.getColumn lcol3 = Except.ok (v, s') ∧
      sstateStored.hasColumn lcol3 = Except.ok (true, s')) :=
  ⟨((get_column_out_of_scope_iff sstateStored ⟨5, 3⟩ sstateStored_wf
      rfl).1 rfl).1,
    ((get_column_out_of_scope_iff sstateStored ⟨5, 3⟩ sstateStored_wf
      rfl).1 rfl).2,
    (get_column_out_of_scope_iff sstateStored lcol3 sstateStored_wf
      rfl).2 rfl⟩

/-- Helper: mapping a key-preserving function over pairs keeps the first
projections. -/
theorem map_fst_pairmap {α β γ : Type} (g : α × β → γ) (l : List (α × β)) :
    (l.map (fun p => (p.1, g p))).map Prod.fst = l.map Prod.fst := by
  induction l with
  | nil => rfl
  | cons hd tl ih => simp [ih]

/-- Helper: the derived schema has the columns' names in order. -/
theorem schema_from_columns_names (cols : List (String × Column)) :
    (schema_from_columns cols).map Prod.fst = cols.map Prod.fst :=
  map_fst_pairmap _ cols

/-- Helper: a table built by `__init__` without an explicit schema
satisfies the invariant as soon as its columns live in its universe. -/
theorem tableInv_mk_none (tid : Nat) (cols : List (String × Column))
    (u : Nat) (h : ∀ nc ∈ cols, nc.2.univ = u) :
    TableInv (mkTable tid cols u none) :=
  ⟨schema_from_columns_names cols, h⟩

/-- Helper: `_table_with_context` always satisfies the invariant. -/
theorem tableInv_tableWithContext (t : Table) (c : Ctx) :
    TableInv (t.tableWithContext c) := by
  apply tableInv_mk_none
  intro nc hnc
  simp only [List.mem_map] at hnc
  obtain ⟨p, _, hp⟩ := hnc
  cases hp
  rfl

/-- Helper: `copy` always satisfies the invariant. -/
theorem tableInv_copy (t : Table) : TableInv t.copy := by
  apply tableInv_mk_none
  intro nc hnc
  simp only [List.mem_map] at hnc
  obtain ⟨p, _, hp⟩ := hnc
  cases hp
  rfl

/-- Helper: `update_types` always satisfies the invariant. -/
theorem tableInv_updateTypes (t : Table) (name : String) (d : DType) :
    TableInv (t.updateTypes name d) := by
  apply tableInv_mk_none
  intro nc hnc
  simp only [List.mem_map] at hnc
  obtain ⟨p, _, hp⟩ := hnc
  cases hp
  rfl

/-- Helper: `_from_schema` satisfies the invariant. -/
theorem tableInv_fromSchema (tid : Nat) (sch : List (String × DType))
    (u : Nat) : TableInv (Table.fromSchema tid sch u) := by
  constructor
  · exact (map_fst_pairmap _ sch).symm
  · intro nc hnc
    simp only [Table.fromSchema, List.mem_map] at hnc
    obtain ⟨p, _, hp⟩ := hnc
    cases hp
    rfl

/-- Helper: `_flatten` satisfies the invariant. -/
theorem tableInv_flattenInner (t : Table) (name : String) (u : Nat)
    (d : DType) : TableInv (t.flattenInner name u d) := by
  apply tableInv_mk_none
  intro nc hnc
  simp only [List.mem_cons, List.mem_map] at hnc
  rcases hnc with h | ⟨p, _, hp⟩
  · cases h
    rfl
  · cases hp
    rfl

/-- Helper: a successful `filter` produces an invariant-satisfying
table. -/
theorem filter_result_inv (s : Solver) (t : Table) (e : FilterExpr)
    (s' : Solver) (tr : Table)
    (h : Table.filter s t e = Except.ok (s', tr)) : TableInv tr := by
  unfold Table.filter at h
  split at h
  · cases h
  · split at h
    · split at h
      · split at h
        · cases h
        · cases h
          exact tableInv_updateTypes _ _ _
      · cases h
        exact tableInv_tableWithContext _ _
    · cases h
      exact tableInv_tableWithContext _ _

/-- Helper: a successful `concat` produces an invariant-satisfying
table. -/
theorem concat_result_inv (s : Solver) (t : Table) (others : List Table)
    (w : List String) (s' : Solver) (tr : Table)
    (h : Table.concat s t others = (w, Except.ok (s', tr))) :
    TableInv tr := by
  unfold Table.concat at h
  split at h
  · injection h with h1 h2
    cases h2
  · split at h
    · injection h with h1 h2
      cases h2
    · injection h with h1 h2
      unfold Table.concatUnsafe at h2
      split at h2
      · cases h2
      · cases h2
        exact tableInv_tableWithContext _ _

/-- Helper: a successful `update_rows` produces an invariant-satisfying
table, given that `other` satisfies it (the subset shortcut returns
`other`). -/
theorem update_rows_result_inv (s : Solver) (t other : Table)
    (w : List String) (s' : Solver) (tr : Table) (hother : TableInv other)
    (h : Table.updateRows s t other = (w, Except.ok (s', tr))) :
    TableInv tr := by
  unfold Table.updateRows at h
  split at h
  · injection h with h1 h2
    cases h2
  · split at h
    · injection h with h1 h2
      cases h2
      exact hother
    · split at h
      · injection h with h1 h2
        cases h2
      · injection h with h1 h2
        cases h2
        exact tableInv_tableWithContext _ _

/-- Helper: a successful `with_universe_of` produces an
invariant-satisfying table. -/
theorem with_universe_of_result_inv (s : Solver) (t other : Table)
    (s' : Solver) (tr : Table)
    (h : Table.withUniverseOf s t other = Except.ok (s', tr)) :
    TableInv tr := by
  unfold Table.withUniverseOf at h
  split at h
  · cases h
    exact tableInv_copy _
  · split at h
    · cases h
    · cases h
      exact tableInv_tableWithContext _ _

/-- Helper: a successful `restrict` produces an invariant-satisfying
table. -/
theorem restrict_result_inv (s : Solver) (t other : Table) (tr : Table)
    (h : Table.restrict s t other = Except.ok tr) : TableInv tr := by
  unfold Table.restrict at h
  split at h
  · cases h
  · cases h
    exact tableInv_tableWithContext _ _

/-- Helper: a successful `ix` produces an invariant-satisfying table. -/
theorem ix_result_inv (t : Table) (kd : DType) (ku : Nat) (opt : Bool)
    (tr : Table) (h : Table.ix t kd ku opt = Except.ok tr) :
    TableInv tr := by
  unfold Table.ix at h
  split at h
  · cases h
  · cases h
    exact tableInv_tableWithContext _ _

/-- Claim C6: every table produced by the modelled public operators
satisfies the invariant — the schema's ordered column names equal the
column mapping's names in the same order, and every column's universe
equals the table's universe (table.py:106-122, 1907-1921, with each
operator constructing its result through these). -/
theorem produced_table_invariant (t : Table) (h : Produced t) :
    TableInv t := by
  induction h with
  | fromSchema tid sch u => exact tableInv_fromSchema tid sch u
  | copy t _ _ => exact tableInv_copy t
  | filterOp s t e s' tr _ hf _ => exact filter_result_inv s t e s' tr hf
  | concatOp s t others w s' tr _ hc _ =>
    exact concat_result_inv s t others w s' tr hc
  | updateRowsOp s t other w s' tr _ _ hu _ ihother =>
    exact update_rows_result_inv s t other w s' tr ihother hu
  | withUniverseOfOp s t other s' tr _ hw _ =>
    exact with_universe_of_result_inv s t other s' tr hw
  | restrictOp s t other tr _ hr _ => exact restrict_result_inv s t other tr hr
  | ixOp t kd ku opt tr _ hx _ => exact ix_result_inv t kd ku opt tr hx
  | flattenOp t name u d _ _ => exact tableInv_flattenInner t name u d

/-- Claim C6 witness: the theorem applied to the copy of a concrete base
table. -/
theorem produced_table_invariant_witness : TableInv tblA.copy :=
  produced_table_invariant tblA.copy
    (Produced.copy tblA (Produced.fromSchema 0 [("a", DType.int)] 0))

end Pathway
